import Mathlib

/-!
Verification of the Session & Streaming Transaction Engine of the sazid repository.

The Rust sources are shallowly embedded: pure functions become Lean functions, the
impure clock and the filesystem become explicit parameters (a millisecond timestamp
and an association-list file store), and fallible operations return `Option`/`Except`.
Definitions follow `src/src/components/session.rs`, `src/src/session_manager.rs`,
`src/src/types.rs` and `src/src/app/session_config.rs`; parts of the repository that
are not in those files (consts, the chunkifier, the function registry, the backoff
crate's loop) are modelled from the spec and marked as such in their doc comments.
-/

deriving instance DecidableEq for Except

namespace Sazid

/-- Chat roles, from async_openai::types::Role as used throughout the source. -/
inductive Role where
  | System
  | User
  | Assistant
  | Function
deriving DecidableEq, Repr

/-- Model descriptor, from src/src/types.rs (struct Model): name, endpoint, token_limit. -/
structure Model where
  name : String
  endpoint : String
  token_limit : Nat
deriving DecidableEq, Repr

/-- ModelsList, from src/src/types.rs: the default/fallback pairing. -/
structure ModelsList where
  default : Model
  fallback : Model
deriving DecidableEq, Repr

/-- GPTSettings, from src/src/types.rs. -/
structure GPTSettings where
  default : Model
  fallback : Model
  load_session : Option String
  save_session : Option String
deriving DecidableEq, Repr

/-- Modelled from the spec: src/src/app/consts.rs is not under src/. Spec section 8 gives
the default and fallback model names as "gpt-4" and "gpt-3.5-turbo"; endpoint and token
limit are unspecified there and are never inspected by the claims below. -/
def GPT4 : Model :=
  { name := "gpt-4", endpoint := "https://api.openai.com/v1", token_limit := 8192 }

/-- Modelled from the spec: see GPT4. -/
def GPT3_TURBO : Model :=
  { name := "gpt-3.5-turbo", endpoint := "https://api.openai.com/v1", token_limit := 4096 }

/-- Modelled from the spec: SESSIONS_DIR lives in the missing consts.rs; spec section 6
specifies one file per session under a well-known sessions directory. The concrete value
only serves as a path prefix in the file-store model. -/
def SESSIONS_DIR : String := "sessions"

/-- Request message, from async_openai as constructed in the source (role, content,
function_call, name); the source only ever builds it with function_call and name unset. -/
structure ChatCompletionRequestMessage where
  role : Role
  content : Option String
  function_call : Option String
  name : Option String
deriving DecidableEq, Repr

/-- Modelled from the spec: the function/tool declaration block is a static catalog
supplied by the external command registry (src/src/app/gpt_interface.rs is not under
src/); the request builder treats it as opaque data (spec section 4.3), so it is one
distinguished constant. -/
inductive FunctionDeclarations where
  | catalog
deriving DecidableEq, Repr

/-- Outbound chat completion request, restricted to the fields the source sets in
construct_request (model, messages, functions, stream); the remaining fields come from
Default and are never read by the embedded code. -/
structure CreateChatCompletionRequest where
  model : String
  messages : List ChatCompletionRequestMessage
  functions : Option FunctionDeclarations
  stream : Option Bool
deriving DecidableEq, Repr

/-- Response message of a complete (non-streamed) reply. -/
structure ChatCompletionResponseMessage where
  role : Role
  content : Option String
deriving DecidableEq, Repr

/-- One choice of a complete reply. -/
structure ChatChoice where
  message : ChatCompletionResponseMessage
deriving DecidableEq, Repr

/-- Complete, non-streamed reply (the choices list is the only field the source reads). -/
structure CreateChatCompletionResponse where
  choices : List ChatChoice
deriving DecidableEq, Repr

/-- One streamed delta: optional role, optional content fragment. -/
structure ChatCompletionStreamResponseDelta where
  role : Option Role
  content : Option String
deriving DecidableEq, Repr

/-- One choice of a streamed fragment: its delta plus an optional finish reason. -/
structure ChatCompletionResponseStreamChoice where
  delta : ChatCompletionStreamResponseDelta
  finish_reason : Option String
deriving DecidableEq, Repr

/-- One streamed fragment as delivered by the stream. -/
structure CreateChatCompletionStreamResponse where
  choices : List ChatCompletionResponseStreamChoice
deriving DecidableEq, Repr

/-- ChatTransaction: the tagged variant over request / response / stream fragment,
reconstructed from its use in src/src/components/session.rs (its defining module,
app/types.rs, is not under src/). -/
inductive ChatTransaction where
  | Request (request : CreateChatCompletionRequest)
  | Response (response : CreateChatCompletionResponse)
  | StreamResponse (stream_response : CreateChatCompletionStreamResponse)
deriving DecidableEq, Repr

/-- SessionConfig, from src/src/components/session.rs (the variant the Session owns). -/
structure SessionConfig where
  session_id : String
  model : Model
  include_functions : Bool
  stream_response : Bool
deriving DecidableEq, Repr

/-- SessionConfig::generate_session_id. The impure clock is made explicit: start_ms is
the SystemTime sample in milliseconds since UNIX_EPOCH at the moment the call starts.
The source samples the whole-second timestamp FIRST, then sleeps one second, then
returns the pre-sleep sample as a string; the result pair is (session id, clock value
at which the call returns). -/
def generate_session_id (start_ms : Nat) : String × Nat :=
  let since_the_epoch := start_ms / 1000
  (Nat.repr since_the_epoch, start_ms + 1000)

/-- Default for SessionConfig (impl Default in components/session.rs): fresh time-derived
id, GPT4 model, functions off, streaming on; the clock sample is threaded explicitly. -/
def SessionConfig.defaultAt (now_ms : Nat) : SessionConfig :=
  { session_id := (generate_session_id now_ms).1
    model := GPT4
    include_functions := false
    stream_response := true }

/-- Session from components/session.rs, restricted to its serialized fields
(transactions, config); the serde(skip) UI fields (action_tx, mode, last_events and the
scroll state) are neither persisted nor touched by the claims. -/
structure Session where
  transactions : List ChatTransaction
  config : SessionConfig
deriving DecidableEq, Repr

/-- Session::new() (= Session::default()) with the clock sample made explicit. -/
def Session.newAt (now_ms : Nat) : Session :=
  { transactions := [], config := SessionConfig.defaultAt now_ms }

/-- construct_chat_completion_request_message from the source. parse_input (the
chunkifier, src/src/app/tools/chunkifier.rs, absent from src/) is modelled from the
spec as the already computed ordered chunk list (spec section 4.1); the function maps
each chunk to a user-role message whose content is the chunk, other fields default. -/
def construct_chat_completion_request_message (chunks : List String) :
    List ChatCompletionRequestMessage :=
  chunks.map fun chunk =>
    { role := Role.User, content := some chunk, function_call := none, name := none }

/-- construct_request from the source: model name from the config, the given messages,
the opaque function catalog exactly when include_functions is set, and the stream flag
copied from stream_response. -/
def construct_request (messages : List ChatCompletionRequestMessage)
    (config : SessionConfig) : CreateChatCompletionRequest :=
  { model := config.model.name
    messages := messages
    functions :=
      match config.include_functions with
      | true => some FunctionDeclarations.catalog
      | false => none
    stream := some config.stream_response }

/-- Session::request_response, restricted to its effect on the owned session state: it
pushes exactly one Request transaction built from the chunked input and the config; the
spawned network task communicates only through the action channel and never touches the
log directly. -/
def Session.request_response (s : Session) (chunks : List String) : Session :=
  let request := construct_request (construct_chat_completion_request_message chunks) s.config
  { s with transactions := s.transactions ++ [ChatTransaction.Request request] }

/-- Session::process_response_handler from the source: it pushes the incoming
transaction onto the log (and emits an Action::Update signal, which carries no data). -/
def Session.process_response_handler (s : Session) (transaction : ChatTransaction) :
    Session :=
  { s with transactions := s.transactions ++ [transaction] }

/-- Inner loop of the draw-time stream scan (session.rs lines 177-183): push each
choice's delta and stop with finished = true at the first choice whose finish_reason is
Some("stop"). -/
def pushChoiceDeltas : List ChatCompletionResponseStreamChoice →
    List ChatCompletionStreamResponseDelta →
    List ChatCompletionStreamResponseDelta × Bool
  | [], deltas => (deltas, false)
  | choice :: rest, deltas =>
    let deltas := deltas ++ [choice.delta]
    if choice.finish_reason = some "stop" then (deltas, true)
    else pushChoiceDeltas rest deltas

/-- Outer loop of the draw-time stream scan (session.rs lines 175-188): starting from
the transaction-list suffix at the StreamResponse being drawn, accumulate deltas from
each StreamResponse transaction until one carries finish_reason "stop"; other
transaction kinds are skipped. -/
def collectStreamDeltas : List ChatTransaction →
    List ChatCompletionStreamResponseDelta → List ChatCompletionStreamResponseDelta
  | [], deltas => deltas
  | t :: rest, deltas =>
    match t with
    | ChatTransaction.StreamResponse sr =>
      match pushChoiceDeltas sr.choices deltas with
      | (deltas2, true) => deltas2
      | (deltas2, false) => collectStreamDeltas rest deltas2
    | _ => collectStreamDeltas rest deltas

/-- Delta fold of the draw scan (session.rs lines 189-196): the style comes from the
last delta carrying a role; assignment, not merge. -/
def lastDeltaRole (deltas : List ChatCompletionStreamResponseDelta) : Option Role :=
  deltas.foldl (fun acc d => match d.role with | some r => some r | none => acc) none

/-- Delta fold of the draw scan (session.rs lines 189-196): the shown text is the
content of the last delta carrying content — assignment, not concatenation. -/
def lastDeltaContent (deltas : List ChatCompletionStreamResponseDelta) : Option String :=
  deltas.foldl (fun acc d => match d.content with | some c => some c | none => acc) none

/-- Whether the draw scan starting at this suffix observes a terminal finish_reason
"stop" (the finished flag of session.rs lines 174-187). -/
def streamScanFinished : List ChatTransaction → Bool
  | [] => false
  | t :: rest =>
    match t with
    | ChatTransaction.StreamResponse sr =>
      match pushChoiceDeltas sr.choices [] with
      | (_, true) => true
      | (_, false) => streamScanFinished rest
    | _ => streamScanFinished rest

/-- Spec section 4.5 open/closed state, read off from the draw scan: the StreamResponse
transaction at position i is open when the scan starting at i never observes a terminal
finish reason; a session has no open streamed transaction when every StreamResponse
suffix scan finishes. -/
def Session.noOpenStreamResponse (s : Session) : Bool :=
  (List.range s.transactions.length).all fun i =>
    match s.transactions.drop i with
    | ChatTransaction.StreamResponse _ :: _ => streamScanFinished (s.transactions.drop i)
    | _ => true

/-- One session file's contents: either a value that deserializes to a Session's
persisted fields, or bytes serde_json cannot parse. serde_json to_string followed by
from_str on these derive types is lossless on the persisted projection, so it is
modelled as the identity. -/
inductive FileContent where
  | valid (session : Session)
  | corrupt
deriving DecidableEq, Repr

/-- The sessions directory as a file store: association list path to contents, most
recent write first. -/
abbrev FileStore := List (String × FileContent)

/-- fs::write in the model: record the new contents for the path. -/
def FileStore.write (store : FileStore) (path : String) (contents : FileContent) :
    FileStore :=
  (path, contents) :: store

/-- fs::read_to_string in the model: the current contents of the path, none when the
file is missing. -/
def FileStore.read (store : FileStore) (path : String) : Option FileContent :=
  store.lookup path

/-- Session::get_session_filename. -/
def get_session_filename (session_id : String) : String :=
  session_id ++ ".json"

/-- Session::get_session_filepath: Path::new(SESSIONS_DIR).join(filename). -/
def get_session_filepath (session_id : String) : String :=
  SESSIONS_DIR ++ "/" ++ get_session_filename session_id

/-- Session::save_session: serialize self and write it at the session id's filepath. -/
def Session.save_session (s : Session) (store : FileStore) : FileStore :=
  FileStore.write store (get_session_filepath s.config.session_id) (FileContent.valid s)

/-- Session::load_session_by_id. Ok(read) branch: serde_json::from_str(..).unwrap() —
a valid file yields the stored session, a corrupt file makes the unwrap panic (modelled
as none); Err branch (missing file): prints a note and returns Session::new(). -/
def load_session_by_id (store : FileStore) (session_id : String) (now_ms : Nat) :
    Option Session :=
  match FileStore.read store (get_session_filepath session_id) with
  | some (FileContent.valid session) => some session
  | some FileContent.corrupt => none
  | none => some (Session.newAt now_ms)

/-- GPTConnectorError, modelled from its use in the source (src/src/errors.rs is not
under src/): select_model only ever constructs the Other(String) variant. -/
inductive GPTConnectorError where
  | Other (msg : String)
deriving DecidableEq, Repr

/-- select_model from components/session.rs. The client.models().list() network call is
made explicit as models_response: ok carries the catalog's model ids (response.data
mapped to id), error carries a payload the source discards. On success with the default
name present it returns available_models.default — the hardcoded GPT4 — and likewise
the hardcoded GPT3_TURBO for the fallback; otherwise fixed-message errors. -/
def select_model (settings : GPTSettings)
    (models_response : Except Unit (List String)) : Except GPTConnectorError Model :=
  match models_response with
  | Except.ok model_names =>
    let available_models : ModelsList := { default := GPT4, fallback := GPT3_TURBO }
    if model_names.contains settings.default.name then
      Except.ok available_models.default
    else if model_names.contains settings.fallback.name then
      Except.ok available_models.fallback
    else
      Except.error (GPTConnectorError.Other
        "Neither the default nor the fallback model is accessible.")
  | Except.error _ =>
    Except.error (GPTConnectorError.Other "Failed to fetch the list of available models.")

/-- The backoff policy configured by create_openai_client: exponential backoff with
max_elapsed_time = Some(Duration::from_secs(60)). Times are in milliseconds. -/
structure BackoffPolicy where
  max_elapsed_time : Option Nat
deriving DecidableEq, Repr

/-- create_openai_client's backoff configuration (session.rs lines 349-356). -/
def create_openai_client_backoff : BackoffPolicy :=
  { max_elapsed_time := some 60000 }

/-- Error taxonomy of the transport layer (spec section 7). -/
inductive TransportError where
  | TransportTransient
  | TransportFatal
deriving DecidableEq, Repr

/-- Modelled from the spec: the retry loop itself lives in the backoff crate (not part
of this repository; only its configuration, create_openai_client, is under src/). Spec
section 4.4: transient errors are retried with exponential backoff up to a bounded
total elapsed time; once the ceiling is reached the error is surfaced. Against an
always-failing transient endpoint: starting from elapsed total milliseconds with the
current retry interval, if waiting again would pass the ceiling the transient error is
surfaced with the total elapsed time, else wait, double the interval, retry. The
interval is clamped to at least one millisecond. -/
def retryTransient (max_elapsed interval elapsed : Nat) : Nat × TransportError :=
  if _h : max_elapsed < elapsed + max interval 1 then
    (elapsed, TransportError.TransportTransient)
  else
    retryTransient max_elapsed (max interval 1 * 2) (elapsed + max interval 1)
termination_by max_elapsed - elapsed
decreasing_by
  have h1 : 1 ≤ max interval 1 := Nat.le_max_right interval 1
  omega

/-- SessionManagerError, modelled from its use in src/src/session_manager.rs
(errors.rs is not under src/): the variants load_session constructs. -/
inductive SessionManagerError where
  | FileNotFound (file : String)
  | ReadError
deriving DecidableEq, Repr

/-- Result of the filesystem access in SessionManager::load_session: the file may be
missing (Path::exists is false), unreadable (read_to_string errs), or readable, in
which case its contents are the list of its lines. -/
inductive FileReadResult where
  | missing
  | unreadable
  | readable (lines : List String)
deriving DecidableEq, Repr

/-- Rust's line.splitn(2, ':'): at most two parts, split at the first ':'; a line
without ':' stays whole. -/
def splitn2_colon (line : String) : List String :=
  match line.splitOn ":" with
  | [] => []
  | [s] => [s]
  | s :: rest => [s, String.intercalate ":" rest]

/-- Per-line parse of SessionManager::load_session (session_manager.rs lines 95-115):
split at the first ':', require exactly the role names system/user/assistant before it,
and take the trimmed remainder as content; anything else parses to none. -/
def parseSessionLine (line : String) : Option ChatCompletionRequestMessage :=
  match splitn2_colon line with
  | [role_str, message] =>
    match role_str with
    | "system" =>
      some { role := Role.System, content := some message.trim
             function_call := none, name := none }
    | "user" =>
      some { role := Role.User, content := some message.trim
             function_call := none, name := none }
    | "assistant" =>
      some { role := Role.Assistant, content := some message.trim
             function_call := none, name := none }
    | _ => none
  | _ => none

/-- SessionManager::load_session: a missing file is FileNotFound, a read failure is
ReadError, and otherwise every line is parsed with unparseable lines silently dropped
(filter_map), preserving file order. -/
def SessionManager.load_session (session_file : String) (file : FileReadResult) :
    Except SessionManagerError (List ChatCompletionRequestMessage) :=
  match file with
  | FileReadResult.missing =>
    Except.error (SessionManagerError.FileNotFound session_file)
  | FileReadResult.unreadable => Except.error SessionManagerError.ReadError
  | FileReadResult.readable lines => Except.ok (lines.filterMap parseSessionLine)

/-- The claim's description of a parseable line, written from its words alone: the line
has a ':' separator and the prefix before the first ':' is exactly one of "system",
"user", "assistant". -/
def lineParseableSpec (line : String) : Bool :=
  decide (2 ≤ (line.splitOn ":").length) &&
    decide ((line.splitOn ":").headD "" ∈ (["system", "user", "assistant"] : List String))

/-- The two mutations of the session log (spec section 3: Session is mutated by
request_response, which appends a Request, and process_response_handler, which handles
a Response / StreamResponse). -/
inductive SessionStep : Session → Session → Prop where
  | request (s : Session) (chunks : List String) : SessionStep s (s.request_response chunks)
  | response (s : Session) (t : ChatTransaction) :
      SessionStep s (s.process_response_handler t)

/-- Decimal digit list of n, most significant first: the list Nat.toDigitsCore builds
when printing a session id. -/
def decDigits (n : Nat) : List Char :=
  if _h : n / 10 = 0 then [Nat.digitChar (n % 10)]
  else decDigits (n / 10) ++ [Nat.digitChar (n % 10)]
termination_by n
decreasing_by omega

/-- Decimal decoding of a digit-character list, used to invert decDigits. -/
def decodeDecDigits (ds : List Char) : Nat :=
  ds.foldl (fun acc c => acc * 10 + (c.toNat - 48)) 0

theorem digitChar_toNat_sub (d : Nat) (h : d < 10) : (Nat.digitChar d).toNat - 48 = d := by
  interval_cases d <;> decide

theorem foldl_decode_append (l : List Char) (c : Char) (acc : Nat) :
    List.foldl (fun acc c => acc * 10 + (c.toNat - 48)) acc (l ++ [c]) =
      (List.foldl (fun acc c => acc * 10 + (c.toNat - 48)) acc l) * 10 + (c.toNat - 48) := by
  rw [List.foldl_append]
  rfl

theorem foldl_decode_shift (l : List Char) (acc : Nat) :
    List.foldl (fun acc c => acc * 10 + (c.toNat - 48)) acc l =
      acc * 10 ^ l.length + List.foldl (fun acc c => acc * 10 + (c.toNat - 48)) 0 l := by
  induction l generalizing acc with
  | nil => simp
  | cons c rest ih =>
    simp only [List.foldl_cons, List.length_cons]
    rw [ih (acc * 10 + (c.toNat - 48)), ih (0 * 10 + (c.toNat - 48))]
    ring

theorem decode_decDigits (n : Nat) : decodeDecDigits (decDigits n) = n := by
  induction n using Nat.strong_induction_on with
  | _ n ih =>
    rw [decDigits]
    by_cases h : n / 10 = 0
    · rw [dif_pos h]
      have hlt : n % 10 < 10 := Nat.mod_lt _ (by omega)
      show 0 * 10 + ((Nat.digitChar (n % 10)).toNat - 48) = n
      rw [digitChar_toNat_sub _ hlt]
      omega
    · rw [dif_neg h]
      have hlt : n % 10 < 10 := Nat.mod_lt _ (by omega)
      have hdiv : n / 10 < n := by omega
      unfold decodeDecDigits
      rw [foldl_decode_append, digitChar_toNat_sub _ hlt]
      have := ih (n / 10) hdiv
      unfold decodeDecDigits at this
      rw [this]
      omega

theorem decDigits_injective {a b : Nat} (h : decDigits a = decDigits b) : a = b := by
  have := congrArg decodeDecDigits h
  rwa [decode_decDigits, decode_decDigits] at this

theorem toDigitsCore_eq_decDigits (fuel : Nat) :
    ∀ (n : Nat) (ds : List Char), n < fuel →
      Nat.toDigitsCore 10 fuel n ds = decDigits n ++ ds := by
  induction fuel with
  | zero => intro n ds hf; omega
  | succ f ih =>
    intro n ds hf
    rw [Nat.toDigitsCore]
    by_cases h : n / 10 = 0
    · rw [if_pos h, decDigits, dif_pos h]
      rfl
    · rw [if_neg h, decDigits, dif_neg h, ih (n / 10) _ (by omega)]
      simp

/-- Nat.repr (the session id rendering) is injective. -/
theorem Nat_repr_injective {a b : Nat} (h : Nat.repr a = Nat.repr b) : a = b := by
  have ha : Nat.repr a = (decDigits a).asString := by
    show (Nat.toDigits 10 a).asString = _
    rw [Nat.toDigits, toDigitsCore_eq_decDigits (a + 1) a [] (by omega)]
    simp
  have hb : Nat.repr b = (decDigits b).asString := by
    show (Nat.toDigits 10 b).asString = _
    rw [Nat.toDigits, toDigitsCore_eq_decDigits (b + 1) b [] (by omega)]
    simp
  rw [ha, hb] at h
  exact decDigits_injective (congrArg String.data h)

/-- Concrete config for exercising the streaming fold. -/
def c1_config : SessionConfig :=
  { session_id := "0", model := GPT4, include_functions := false, stream_response := true }

/-- First fragment of spec section 8's folding law: role assistant, content "Hel". -/
def c1_frag1 : CreateChatCompletionStreamResponse :=
  { choices := [{ delta := { role := some Role.Assistant, content := some "Hel" }
                  finish_reason := none }] }

/-- Second fragment: content "lo". -/
def c1_frag2 : CreateChatCompletionStreamResponse :=
  { choices := [{ delta := { role := none, content := some "lo" }
                  finish_reason := none }] }

/-- Third fragment: finish_reason "stop". -/
def c1_frag3 : CreateChatCompletionStreamResponse :=
  { choices := [{ delta := { role := none, content := none }
                  finish_reason := some "stop" }] }

/-- The session obtained by feeding the three fragments, one per
process_response_handler call, into a session with an empty transaction log. -/
def c1_session : Session :=
  (((Session.mk [] c1_config).process_response_handler
        (ChatTransaction.StreamResponse c1_frag1)).process_response_handler
      (ChatTransaction.StreamResponse c1_frag2)).process_response_handler
    (ChatTransaction.StreamResponse c1_frag3)

/-- C1 counterexample: feeding the fragment sequence [assistant "Hel"; "lo"; stop] into
an empty log yields three StreamResponse transactions, not exactly one —
process_response_handler pushes every fragment as its own transaction and never folds. -/
theorem c1_counterexample :
    c1_session.transactions =
      [ChatTransaction.StreamResponse c1_frag1, ChatTransaction.StreamResponse c1_frag2,
        ChatTransaction.StreamResponse c1_frag3] ∧
    c1_session.transactions.length ≠ 1 := by
  exact ⟨rfl, by decide⟩

/-- C1 (amended): each fragment is appended as its own StreamResponse transaction, in
arrival order; the draw-time scan starting at the first transaction accumulates all
three deltas and observes the terminal finish reason "stop", but content deltas
overwrite rather than concatenate, so the rendered text is "lo" (the last content
delta), with role assistant taken from the last role-carrying delta. -/
theorem c1_amended :
    c1_session.transactions =
      [ChatTransaction.StreamResponse c1_frag1, ChatTransaction.StreamResponse c1_frag2,
        ChatTransaction.StreamResponse c1_frag3] ∧
    collectStreamDeltas c1_session.transactions [] =
      [{ role := some Role.Assistant, content := some "Hel" },
        { role := none, content := some "lo" },
        { role := none, content := none }] ∧
    lastDeltaContent (collectStreamDeltas c1_session.transactions []) = some "lo" ∧
    lastDeltaRole (collectStreamDeltas c1_session.transactions []) = some Role.Assistant ∧
    streamScanFinished c1_session.transactions = true := by
  exact ⟨rfl, rfl, rfl, rfl, rfl⟩

/-- A store holding one session file whose contents do not deserialize. -/
def c2_corrupt_store : FileStore :=
  [(get_session_filepath "123", FileContent.corrupt)]

/-- C2 counterexample: loading a session whose file exists but whose contents are
corrupt hits serde_json::from_str(..).unwrap(), which panics (modelled as none) — it
does not return a brand-new empty Session, refuting the claim for the corrupt case. -/
theorem c2_counterexample :
    load_session_by_id c2_corrupt_store "123" 0 = none ∧
    load_session_by_id c2_corrupt_store "123" 0 ≠ some (Session.newAt 0) := by
  exact ⟨rfl, by decide⟩

/-- C2 (amended): a missing session file does yield a brand-new empty Session, but
corrupt (readable, non-deserializable) contents abort the process via the unwrap
instead of falling back. -/
theorem c2_amended :
    (∀ (store : FileStore) (session_id : String) (now_ms : Nat),
        FileStore.read store (get_session_filepath session_id) = none →
        load_session_by_id store session_id now_ms = some (Session.newAt now_ms)) ∧
    (∀ (store : FileStore) (session_id : String) (now_ms : Nat),
        FileStore.read store (get_session_filepath session_id) = some FileContent.corrupt →
        load_session_by_id store session_id now_ms = none) := by
  constructor <;> intro store session_id now_ms h <;> simp [load_session_by_id, h]

/-- C2 witness: both branches of the amended statement at concrete inputs — the empty
store has no file for id "7", and c2_corrupt_store has corrupt contents for id "123". -/
theorem c2_amended_witness :
    load_session_by_id [] "7" 5 = some (Session.newAt 5) ∧
    load_session_by_id c2_corrupt_store "123" 9 = none :=
  ⟨c2_amended.1 [] "7" 5 rfl, c2_amended.2 c2_corrupt_store "123" 9 (by decide)⟩

/-- Settings whose configured default/fallback differ from the hardcoded constants. -/
def c3_settings : GPTSettings :=
  { default := { name := "my-custom-default", endpoint := "", token_limit := 1000 }
    fallback := { name := "my-custom-fallback", endpoint := "", token_limit := 1000 }
    load_session := none, save_session := none }

/-- C3 counterexample: the catalog contains the configured default's name, yet
select_model returns the hardcoded GPT4 constant, not the configured default model. -/
theorem c3_counterexample :
    select_model c3_settings (Except.ok ["my-custom-default"]) = Except.ok GPT4 ∧
    select_model c3_settings (Except.ok ["my-custom-default"]) ≠
      Except.ok c3_settings.default := by
  exact ⟨by decide, by decide⟩

/-- C3 (amended): resolution checks the configured default's and fallback's names
against the catalog, but on success returns the hardcoded GPT4 / GPT3_TURBO constants
rather than the configured models; when neither name is present it fails with a
fixed-message error that names neither attempted model. -/
theorem c3_amended (settings : GPTSettings) (model_names : List String) :
    select_model settings (Except.ok model_names) =
      (if model_names.contains settings.default.name then Except.ok GPT4
       else if model_names.contains settings.fallback.name then Except.ok GPT3_TURBO
       else Except.error (GPTConnectorError.Other
         "Neither the default nor the fallback model is accessible.")) := by
  rfl

/-- Settings agreeing with the hardcoded constants, as in spec section 8's example. -/
def c4_settings : GPTSettings :=
  { default := GPT4, fallback := GPT3_TURBO, load_session := none, save_session := none }

/-- C4 counterexample: resolution against an empty set of available model ids yields
the same model-unavailable error produced when the models are simply absent from a
non-empty catalog — not a distinct catalog-fetch failure; the fetch-failure message
arises only when the listing call itself errs. -/
theorem c4_counterexample :
    select_model c4_settings (Except.ok []) =
      Except.error (GPTConnectorError.Other
        "Neither the default nor the fallback model is accessible.") ∧
    select_model c4_settings (Except.ok []) =
      select_model c4_settings (Except.ok ["unrelated-model"]) ∧
    select_model c4_settings (Except.ok []) ≠
      select_model c4_settings (Except.error ()) := by
  exact ⟨by decide, by decide, by decide⟩

/-- C4 (amended): an empty catalog is indistinguishable from unavailable models — it
yields the "Neither …" error for every settings value; the "Failed to fetch …" error
occurs exactly when the catalog listing call itself fails; both use the same
GPTConnectorError.Other constructor and differ only in their message string. -/
theorem c4_amended :
    (∀ settings : GPTSettings, select_model settings (Except.ok []) =
        Except.error (GPTConnectorError.Other
          "Neither the default nor the fallback model is accessible.")) ∧
    (∀ (settings : GPTSettings) (e : Unit), select_model settings (Except.error e) =
        Except.error (GPTConnectorError.Other
          "Failed to fetch the list of available models.")) := by
  exact ⟨fun _ => rfl, fun _ _ => rfl⟩

/-- C5: saving a session and loading it back by its session id returns a session with
the same transactions in the same order and the same config, for every session whose
log has no open (in-flight) streamed transaction — the hypothesis the claim states;
the code needs no such restriction, the roundtrip holds regardless. -/
theorem c5_save_load_roundtrip (store : FileStore) (s : Session) (now_ms : Nat)
    (_h : s.noOpenStreamResponse = true) :
    load_session_by_id (s.save_session store) s.config.session_id now_ms = some s := by
  unfold load_session_by_id Session.save_session FileStore.write FileStore.read
  simp [List.lookup]

/-- A session with one finished stream transaction, for the C5 witness. -/
def c5_session : Session :=
  { transactions :=
      [ChatTransaction.StreamResponse
        { choices := [{ delta := { role := some Role.Assistant, content := some "hi" }
                        finish_reason := some "stop" }] }]
    config :=
      { session_id := "42", model := GPT4, include_functions := false
        stream_response := true } }

/-- C5 witness: the roundtrip at a concrete session with a closed stream transaction. -/
theorem c5_save_load_roundtrip_witness :
    load_session_by_id (c5_session.save_session []) "42" 0 = some c5_session :=
  c5_save_load_roundtrip [] c5_session 0 (by decide)

/-- C6: the transaction log is append-only — request_response appends exactly one
Request transaction at the end, process_response_handler appends exactly the delivered
transaction at the end, and along any sequence of these operations every earlier log is
a prefix of every later log. -/
theorem c6_append_only :
    (∀ (s : Session) (chunks : List String),
        (s.request_response chunks).transactions =
          s.transactions ++ [ChatTransaction.Request
            (construct_request (construct_chat_completion_request_message chunks)
              s.config)]) ∧
    (∀ (s : Session) (t : ChatTransaction),
        (s.process_response_handler t).transactions = s.transactions ++ [t]) ∧
    (∀ s s' : Session, Relation.ReflTransGen SessionStep s s' →
        s.transactions <+: s'.transactions) := by
  refine ⟨fun s chunks => rfl, fun s t => rfl, ?_⟩
  intro s s' h
  induction h with
  | refl => exact List.prefix_refl _
  | tail _hab hstep ih =>
    refine ih.trans ?_
    cases hstep with
    | request chunks => exact ⟨_, rfl⟩
    | response t => exact ⟨_, rfl⟩

/-- A concrete session for the C6 witness. -/
def c6_session : Session :=
  { transactions := []
    config :=
      { session_id := "6", model := GPT4, include_functions := false
        stream_response := false } }

/-- C6 witness: one process_response_handler step from a concrete session, with the
starting log a prefix of the resulting log. -/
theorem c6_append_only_witness :
    c6_session.transactions <+:
      (c6_session.process_response_handler
        (ChatTransaction.Response { choices := [] })).transactions :=
  c6_append_only.2.2 c6_session _
    (Relation.ReflTransGen.single
      (SessionStep.response c6_session (ChatTransaction.Response { choices := [] })))

/-- C7: the built request carries exactly one user-role message per chunk with message
order equal to chunk order (the messages are precisely the chunks mapped to user
messages), a function declaration block exactly when include_functions is set, and the
stream flag copied from stream_response. -/
theorem c7_construct_request (chunks : List String) (config : SessionConfig) :
    (construct_request (construct_chat_completion_request_message chunks) config).messages =
      chunks.map (fun chunk =>
        { role := Role.User, content := some chunk, function_call := none
          name := none }) ∧
    (construct_request (construct_chat_completion_request_message chunks)
        config).messages.length = chunks.length ∧
    (construct_request (construct_chat_completion_request_message chunks)
        config).functions.isSome = config.include_functions ∧
    (construct_request (construct_chat_completion_request_message chunks) config).stream =
      some config.stream_response := by
  refine ⟨rfl, ?_, ?_, rfl⟩
  · simp [construct_request, construct_chat_completion_request_message]
  · cases h : config.include_functions <;>
      simp [construct_request, h]

/-- C8 counterexample: two invocations started concurrently within the same clock
second — at 0 ms and at 500 ms — sample the same whole second and return identical
session ids; the one-second sleep happens after the timestamp sample, so it cannot
separate samples of concurrently started calls. -/
theorem c8_counterexample :
    (generate_session_id 0).1 = (generate_session_id 500).1 := by
  rfl

/-- C8 (amended): the 1-second sleep separates only sequential invocations — when the
second call starts at or after the first call's return time (one second after its
sample), the sampled seconds differ and the returned session ids are distinct. -/
theorem c8_amended (t1 t2 : Nat) (h : (generate_session_id t1).2 ≤ t2) :
    (generate_session_id t1).1 ≠ (generate_session_id t2).1 := by
  intro heq
  have hs : t1 / 1000 = t2 / 1000 := Nat_repr_injective heq
  have h2 : t1 + 1000 ≤ t2 := h
  omega

/-- C8 witness: a second invocation starting exactly at the first one's return time
gets a distinct id. -/
theorem c8_amended_witness :
    (generate_session_id 0).1 ≠ (generate_session_id 1000).1 :=
  c8_amended 0 1000 (by decide)

theorem retryTransient_spec (m : Nat) :
    ∀ (fuel i e : Nat), m - e ≤ fuel →
      (retryTransient m i e).2 = TransportError.TransportTransient ∧
      (e ≤ m → (retryTransient m i e).1 ≤ m) := by
  intro fuel
  induction fuel with
  | zero =>
    intro i e hf
    have h1 : 1 ≤ max i 1 := Nat.le_max_right i 1
    unfold retryTransient
    rw [dif_pos (by omega)]
    exact ⟨rfl, fun he => he⟩
  | succ f ih =>
    intro i e hf
    have h1 : 1 ≤ max i 1 := Nat.le_max_right i 1
    unfold retryTransient
    by_cases hc : m < e + max i 1
    · rw [dif_pos hc]
      exact ⟨rfl, fun he => he⟩
    · rw [dif_neg hc]
      exact ⟨(ih _ _ (by omega)).1, fun _he => (ih _ _ (by omega)).2 (by omega)⟩

/-- C9: against an always-failing transient endpoint, the retry loop configured with
create_openai_client's 60-second ceiling terminates for every initial interval (it is a
total function), surfaces the transient error rather than retrying indefinitely, and
its total elapsed time never exceeds the configured ceiling. -/
theorem c9_retry_bounded (interval : Nat) :
    (retryTransient (create_openai_client_backoff.max_elapsed_time.getD 0)
        interval 0).2 = TransportError.TransportTransient ∧
    (retryTransient (create_openai_client_backoff.max_elapsed_time.getD 0)
        interval 0).1 ≤ create_openai_client_backoff.max_elapsed_time.getD 0 := by
  have h := retryTransient_spec (create_openai_client_backoff.max_elapsed_time.getD 0)
    (create_openai_client_backoff.max_elapsed_time.getD 0) interval 0 (by omega)
  exact ⟨h.1, h.2 (Nat.zero_le _)⟩

theorem parseSessionLine_isSome (line : String) :
    (parseSessionLine line).isSome = lineParseableSpec line := by
  unfold parseSessionLine splitn2_colon lineParseableSpec
  rcases h : line.splitOn ":" with _ | ⟨s, _ | ⟨s2, rest2⟩⟩
  · simp
  · simp
  · simp only []
    have hlen : decide (2 ≤ (s :: s2 :: rest2).length) = true :=
      decide_eq_true (by simp)
    rw [hlen, Bool.true_and, List.headD_cons]
    split
    · simp
    · simp
    · simp
    · rename_i h1 h2 h3
      rw [Option.isSome_none, eq_comm, decide_eq_false_iff_not]
      intro hmem
      simp only [List.mem_cons, List.mem_singleton, List.not_mem_nil, or_false] at hmem
      rcases hmem with hmem | hmem | hmem
      · exact h1 hmem
      · exact h2 hmem
      · exact h3 hmem

theorem filterMap_length_countP (lines : List String) :
    (lines.filterMap parseSessionLine).length = lines.countP lineParseableSpec := by
  induction lines with
  | nil => rfl
  | cons l ls ih =>
    rw [List.filterMap_cons, List.countP_cons]
    have hiff := parseSessionLine_isSome l
    cases hp : parseSessionLine l with
    | none =>
      have : lineParseableSpec l = false := by rw [← hiff, hp, Option.isSome_none]
      rw [this]
      simpa using ih
    | some m =>
      have : lineParseableSpec l = true := by rw [← hiff, hp, Option.isSome_some]
      rw [this]
      simpa using ih

/-- C10: with an existing readable file, load_session always succeeds and returns, in
file order, exactly the messages of the parseable lines (filter_map over the line
parse); a line parses precisely when it has a ':' separator and the prefix before the
first ':' is exactly one of "system", "user", "assistant" — anything else is silently
dropped, as the count of kept lines confirms. -/
theorem c10_load_session (session_file : String) (lines : List String) :
    SessionManager.load_session session_file (FileReadResult.readable lines) =
      Except.ok (lines.filterMap parseSessionLine) ∧
    (∀ line : String, (parseSessionLine line).isSome = lineParseableSpec line) ∧
    (lines.filterMap parseSessionLine).length = lines.countP lineParseableSpec := by
  exact ⟨rfl, parseSessionLine_isSome, filterMap_length_countP lines⟩

end Sazid
